import Mathlib

/-
Verification of the harmony dependency-injection container.

This file gives a shallow embedding of the container core:
  - src/harmony/core/bean_definition.py   (BeanDefinition, ConstructorArgument, ...)
  - src/harmony/core/bean_factory.py      (BeanFactory: register / get_bean /
    get_bean_by_type / creation with cycle detection / destroy_singletons)
  - src/harmony/container/dependency_resolver.py (DependencyResolver)
  - src/harmony/extensions/object_pool.py (ObjectPool / PrototypeObjectPool)

Modelling conventions:
  - Python dicts are insertion-ordered association lists (`dictGet` / `dictSet`);
    Python sets are lists kept duplicate-free by `setAdd` / `setDiscard`
    (insertion order of the list is a model artifact and no theorem about a
    Python set's iteration order is derived from it).
  - The model is sequential: `with lock:` blocks are no-ops, and WeakSet /
    weakref diagnostics are ordinary sets (no garbage collection).
  - Python object identity is an explicit id (`Value.obj type oid`); a fresh id
    is drawn from a counter in the state whenever a constructor runs.
  - The class hierarchy is flat: `issubclass(t1, t2)` with `t1 ≠ t2` never
    holds, so `BeanFactory._find_subclass_candidates` always returns [] and
    `isinstance` is equality of the value's type with the expected type.
  - Reflection (reflection_cache.get_constructor_info) and the behaviour of
    named hook methods (init/destroy/reset) are an environment `PyEnv`:
    per class a constructor-parameter list, and per hook-method name either
    success or the class of exception it raises.
  - The recursive creation machinery is one fuel-indexed interpreter `run`
    over an inductive `Call` of the mutually recursive Python methods; fuel 0
    yields the model-only error `outOfFuel` (never hit at the fuels used here).
-/

namespace Harmony

/-- Scope enum, src/harmony/container/scope.py `ScopeType`. -/
inductive ScopeType where
  | singleton
  | prototype
  | request
  | session
  | application
  | custom
deriving DecidableEq, Repr

/-- Python types as seen by the container: the six primitive types checked by
`param_type in (bool, str, int, float, dict, list)`, the sentinel types
appearing in `_resolve_constructor_dependencies_cached`'s guard (`object`,
`type(None)`, `type(inspect.Parameter.empty)`, and the `None` annotation
itself), and user classes identified by name. -/
inductive PyType where
  | pbool
  | pstr
  | pint
  | pfloat
  | pdict
  | plist
  | pobject
  | pnonetype
  | pempty
  | pnone
  | cls (name : String)
deriving DecidableEq, Repr

/-- Python values: `None`, primitive literals, opaque raw-collection literals
(`vraw t code`: a literal of type `t` identified by `code`), and class
instances with an explicit identity `oid` (Python object identity). -/
inductive Value where
  | vnone
  | vbool (b : Bool)
  | vint (n : Int)
  | vstr (s : String)
  | vraw (t : PyType) (code : Nat)
  | obj (t : PyType) (oid : Nat)
deriving DecidableEq, Repr

/-- Return channel of the interpreter: most embedded methods return a single
value, the dependency resolvers return a list of resolved dependencies. -/
inductive RunRet where
  | val (v : Value)
  | vals (vs : List Value)
deriving DecidableEq, Repr

/-- Extract the single value of a `RunRet` (list-returning calls never flow
into value positions; the `.vals` arm is a harmless total-function default). -/
def RunRet.asVal : RunRet → Value
  | .val v => v
  | .vals _ => .vnone

/-- The Python exception class a hook method raises (when it raises). -/
inductive ExcKind where
  | attributeError
  | typeError
  | keyError
  | valueError
  | osError
  | other
deriving DecidableEq, Repr

/-- Exceptions raised by the embedded code, one constructor per distinct
raise site / message shape of src/harmony (exceptions/harmony_exceptions.py
and the raise sites in core/bean_factory.py, container/dependency_resolver.py,
extensions/concurrent_bean_factory.py). -/
inductive PyErr where
  /-- `NoSuchBeanDefinitionException(bean_name)` from `get_bean`. -/
  | noSuchBeanDefinition (bean_name : String)
  /-- `NoSuchBeanDefinitionException("No bean of type ... found")` from
  `get_bean_by_type`. -/
  | noSuchBeanByType (bean_type : PyType)
  /-- `NoSuchBeanDefinitionException("No bean with qualifier ... found")`. -/
  | noSuchQualifier (qualifier : String)
  /-- `BeanCreationException(bean_name, "Circular dependency detected:
  currently creating beans: ...")` from `_get_bean_by_definition`; carries the
  in-flight set snapshot interpolated into the message. -/
  | circularDependencyDetected (bean_name : String) (creating_beans : List String)
  /-- `BeanCreationException(bean_name, "Unsupported scope: ...")`. -/
  | unsupportedScope (bean_name : String) (scope : ScopeType)
  /-- `BeanCreationException("multiple_candidates", ...)`. -/
  | multipleCandidates (bean_type : PyType) (candidates : List String)
  /-- `BeanCreationException("multiple_primary", ...)`. -/
  | multiplePrimary (bean_type : PyType) (primaries : List String)
  /-- `BeanCreationException(bean_name, "Expected type ...")` from
  `get_bean_typed`'s isinstance check. -/
  | typeMismatch (bean_name : String) (expected : PyType)
  /-- `DependencyInjectionException` from
  `DependencyResolver._resolve_single_dependency`; carries the failed
  dependency's type and qualifier (and no requesting component). -/
  | dependencyResolutionFailure (dependency_type : PyType) (qualifier : Option String)
  /-- `DependencyInjectionException` from `_inject_setter_dependencies`. -/
  | setterInjectionFailure (dependency_name : String)
  /-- an exception of class `k` raised inside the named hook method. -/
  | hookException (k : ExcKind) (method : String)
  /-- `BeanCreationException(bean_name, str(e))`: the blanket
  `except Exception` wrap in `_create_bean_instance`. -/
  | beanCreationWrapped (bean_name : String) (cause : PyErr)
  /-- `CircularDependencyException(bean_name, dependency_chain)` of
  exceptions/harmony_exceptions.py (raised only by
  `ConcurrentBeanFactory._get_prototype_bean`, never by the core factory). -/
  | circularDependencyExc (bean_name : String) (dependency_chain : List String)
  /-- model-only: interpreter fuel exhausted. -/
  | outOfFuel
deriving DecidableEq, Repr

/-- The `except NoSuchBeanDefinitionException` test of
`DependencyResolver._resolve_single_dependency`: which model errors are
instances of `NoSuchBeanDefinitionException`. -/
def PyErr.isNoSuchBean : PyErr → Bool
  | .noSuchBeanDefinition _ => true
  | .noSuchBeanByType _ => true
  | .noSuchQualifier _ => true
  | _ => false

/-- The `except (OSError, ValueError, KeyError)` test of
`_create_prototype_instance_with_pool`. -/
def PyErr.isPoolFallback : PyErr → Bool
  | .hookException .osError _ => true
  | .hookException .valueError _ => true
  | .hookException .keyError _ => true
  | _ => false

/-- the constructor-test used by the C2 counterexample. -/
def PyErr.isCircularDependencyExc : PyErr → Bool
  | .circularDependencyExc _ _ => true
  | _ => false

/-- Lookup in an insertion-ordered association list (Python `d[k]` / `k in d`). -/
def dictGet {α β : Type} [DecidableEq α] : List (α × β) → α → Option β
  | [], _ => none
  | (k', v) :: rest, k => if k' = k then some v else dictGet rest k

/-- In-place update or append (Python `d[k] = v`). -/
def dictSet {α β : Type} [DecidableEq α] : List (α × β) → α → β → List (α × β)
  | [], k, v => [(k, v)]
  | (k', v') :: rest, k, v =>
      if k' = k then (k', v) :: rest else (k', v') :: dictSet rest k v

/-- Python `set.add` on the list-as-set model. -/
def setAdd (s : List String) (x : String) : List String :=
  if x ∈ s then s else s ++ [x]

/-- Python `set.discard` on the list-as-set model. -/
def setDiscard (s : List String) (x : String) : List String :=
  s.filter (fun y => decide (y ≠ x))

/-- Python `WeakSet.add` over values (no garbage collection in the model). -/
def setAddV (s : List Value) (x : Value) : List Value :=
  if x ∈ s then s else s ++ [x]

/-- Python `WeakSet.discard` over values. -/
def setDiscardV (s : List Value) (x : Value) : List Value :=
  s.filter (fun y => decide (y ≠ x))

/-- The primitive test `param_type in (bool, str, int, float, dict, list)`
shared by both resolvers. -/
def isPrimitiveType : PyType → Bool
  | .pbool => true
  | .pstr => true
  | .pint => true
  | .pfloat => true
  | .pdict => true
  | .plist => true
  | _ => false

/-- The guard `param_type and param_type != type(None) and param_type != object
and param_type != type(inspect.Parameter.empty)` of
`_resolve_constructor_dependencies_cached` (the `None` annotation is falsy). -/
def typeGuard : PyType → Bool
  | .pnone => false
  | .pnonetype => false
  | .pobject => false
  | .pempty => false
  | _ => true

/-- The runtime class of a value, for `isinstance` checks. -/
def typeOfValue : Value → PyType
  | .vnone => .pnonetype
  | .vbool _ => .pbool
  | .vint _ => .pint
  | .vstr _ => .pstr
  | .vraw t _ => t
  | .obj t _ => t

/-- `isinstance(bean, bean_type)` under the flat class hierarchy. -/
def valueIsInstance (v : Value) (t : PyType) : Bool :=
  typeOfValue v = t

/-- src/harmony/core/bean_definition.py `ConstructorArgument`. -/
structure ConstructorArgument where
  name : String
  param_type : PyType
  required : Bool := true
  default_value : Value := .vnone
  qualifier : Option String := none
deriving DecidableEq, Repr

/-- src/harmony/core/bean_definition.py `DependencyDefinition`. -/
structure DependencyDefinition where
  name : String
  dependency_type : PyType
  required : Bool := true
  qualifier : Option String := none
deriving DecidableEq, Repr

/-- One entry of reflection_cache `ConstructorInfo.parameters`:
`(name, type, required, default)`. -/
structure ParamInfo where
  name : String
  param_type : PyType
  required : Bool
  default_value : Value
deriving DecidableEq, Repr

/-- src/harmony/core/bean_definition.py `BeanDefinition` (the fields the
container core reads; `factory_method`, a Python callable, is modelled as
producing a fresh instance of the given class). -/
structure BeanDefinition where
  bean_type : PyType
  bean_name : String
  scope : ScopeType := .singleton
  primary : Bool := false
  lazy : Bool := false
  init_method : Option String := none
  destroy_method : Option String := none
  factory_method : Option PyType := none
  constructor_args : List ConstructorArgument := []
  setter_dependencies : List DependencyDefinition := []
deriving DecidableEq, Repr

/-- src/harmony/extensions/object_pool.py `ObjectPool` mutable state:
the idle deque `_pool`, the in-use weak set, the created/reused counters of
`PoolStatistics`, and the size bounds (timestamps and timing statistics are
not tracked). -/
structure PoolState where
  pool : List Value
  in_use : List Value
  total_created : Nat
  total_reused : Nat
  max_size : Nat
  min_size : Nat
deriving DecidableEq, Repr

/-- `PrototypeObjectPool` default sizes (object_pool.py, module-level
`prototype_object_pool = PrototypeObjectPool()`). -/
def poolDefaultMaxSize : Nat := 50

/-- default_min_size of the global `prototype_object_pool`. -/
def poolDefaultMinSize : Nat := 5

/-- The mutable state of a `BeanFactory` plus the global
`prototype_object_pool._pools` it uses, and a fresh-id counter standing for
the Python allocator. -/
structure FactoryState where
  bean_definitions : List (String × BeanDefinition)
  singleton_instances : List (String × Value)
  type_to_bean_names : List (PyType × List String)
  creating_beans : List String
  pools : List (PyType × PoolState)
  next_oid : Nat
deriving DecidableEq, Repr

/-- The empty factory (`BeanFactory.__init__`). -/
def FactoryState.empty : FactoryState :=
  { bean_definitions := []
    singleton_instances := []
    type_to_bean_names := []
    creating_beans := []
    pools := []
    next_oid := 0 }

/-- Environment standing for the Python runtime: reflective constructor
information per class, and the behaviour of named hook methods (init hooks,
destroy hooks, pool reset hooks) on an instance — `none` means the call
returns normally, `some k` means it raises an exception of class `k` (this
also covers `getattr` failing with AttributeError when the method is
missing). -/
structure PyEnv where
  constructor_info : PyType → List ParamInfo
  hook_raises : String → Value → Option ExcKind

/-- `BeanFactory.register_bean_definition`: store by name (silently replacing
any existing definition) and unconditionally append the name to the type
index. -/
def register_bean_definition (s : FactoryState) (d : BeanDefinition) : FactoryState :=
  let names := (dictGet s.type_to_bean_names d.bean_type).getD []
  { s with
      bean_definitions := dictSet s.bean_definitions d.bean_name d
      type_to_bean_names := dictSet s.type_to_bean_names d.bean_type (names ++ [d.bean_name]) }

/-- The loop of `_resolve_constructor_dependencies_cached` that searches
`definition.constructor_args` for the parameter's qualifier (first match by
name, else none). -/
def findQualifier : List ConstructorArgument → String → Option String
  | [], _ => none
  | arg :: rest, pname =>
      if arg.name = pname then arg.qualifier else findQualifier rest pname

/-- The mutually recursive methods of `BeanFactory` (core/bean_factory.py)
together with the global-pool operations they call, as one inductive of
interpreter requests. -/
inductive Call where
  /-- `BeanFactory.get_bean(bean_name)`. -/
  | getBean (bean_name : String)
  /-- `BeanFactory.get_bean_typed(bean_name, bean_type)`. -/
  | getBeanTyped (bean_name : String) (bean_type : PyType)
  /-- `BeanFactory.get_bean_by_type(bean_type, qualifier)`. -/
  | getBeanByType (bean_type : PyType) (qualifier : Option String)
  /-- `BeanFactory._get_bean_by_definition(definition)`. -/
  | getBeanByDefinition (d : BeanDefinition)
  /-- `BeanFactory._create_bean_instance(definition)`. -/
  | createBeanInstance (d : BeanDefinition)
  /-- `BeanFactory._create_singleton_instance_with_cache(definition)`. -/
  | createSingletonWithCache (d : BeanDefinition)
  /-- `BeanFactory._create_prototype_instance_with_pool(definition)`. -/
  | createPrototypeWithPool (d : BeanDefinition)
  /-- the loop of `BeanFactory._resolve_constructor_dependencies_cached`:
  remaining parameters and the `dependencies` accumulator so far. -/
  | resolveCtorDepsCached (d : BeanDefinition) (params : List ParamInfo) (acc : List Value)
  /-- `BeanFactory._perform_injection_and_initialization(instance, definition)`. -/
  | performInjection (v : Value) (d : BeanDefinition)
  /-- the loop of `BeanFactory._inject_setter_dependencies`. -/
  | injectSetters (v : Value) (d : BeanDefinition) (deps : List DependencyDefinition)
  /-- `prototype_object_pool.get_prototype_instance(bean_type, factory)` where
  the factory closure is `_create_singleton_instance_with_cache(d)`. -/
  | poolGetObject (t : PyType) (d : BeanDefinition)
  /-- `ObjectPool._warm_up`'s loop: `n` factory calls still to run, produced
  objects accumulated. -/
  | poolWarmUp (t : PyType) (d : BeanDefinition) (n : Nat) (acc : List Value)
deriving DecidableEq, Repr

/-- Fuel-indexed interpreter for the creation machinery of
core/bean_factory.py (each clause is a direct transcription of the method
named in the matching `Call` constructor; `with self._creation_lock` /
`with self._lock` blocks are no-ops in the sequential model). -/
def run (env : PyEnv) : Nat → Call → FactoryState → Except PyErr RunRet × FactoryState
  | 0, _, s => (.error .outOfFuel, s)
  | fuel + 1, c, s =>
    match c with
    | .getBean n =>
      -- get_bean: check the definition exists (the similar-name suggestions
      -- only decorate the message), then dispatch on the definition.
      match dictGet s.bean_definitions n with
      | none => (.error (.noSuchBeanDefinition n), s)
      | some d => run env fuel (.getBeanByDefinition d) s
    | .getBeanTyped n t =>
      -- get_bean_typed: get_bean then the isinstance check.
      match run env fuel (.getBean n) s with
      | (.ok r, s') =>
          if valueIsInstance r.asVal t then (.ok r, s')
          else (.error (.typeMismatch n t), s')
      | (.error e, s') => (.error e, s')
    | .getBeanByType t q =>
      -- get_bean_by_type: candidates from the type index (the subclass search
      -- of _find_subclass_candidates is empty under the flat hierarchy), then
      -- qualifier / single-candidate / primary disambiguation.
      match dictGet s.type_to_bean_names t with
      | none => (.error (.noSuchBeanByType t), s)
      | some candidate_names =>
        match q with
        | some qual =>
            if qual ∈ candidate_names then run env fuel (.getBeanTyped qual t) s
            else (.error (.noSuchQualifier qual), s)
        | none =>
          match candidate_names with
          | [n] => run env fuel (.getBeanTyped n t) s
          | _ =>
            -- `self.bean_definitions[name].primary`; every indexed name is
            -- registered in reachable states, a missing one counts as
            -- non-primary here.
            let primary_candidates := candidate_names.filter (fun n =>
              match dictGet s.bean_definitions n with
              | some d => d.primary
              | none => false)
            match primary_candidates with
            | [p] => run env fuel (.getBeanTyped p t) s
            | [] => (.error (.multipleCandidates t candidate_names), s)
            | p1 :: p2 :: rest => (.error (.multiplePrimary t (p1 :: p2 :: rest)), s)
    | .getBeanByDefinition d =>
      -- _get_bean_by_definition: cycle check, then per-scope dispatch.
      let n := d.bean_name
      if n ∈ s.creating_beans then
        (.error (.circularDependencyDetected n s.creating_beans), s)
      else
        match d.scope with
        | .singleton =>
          match dictGet s.singleton_instances n with
          | some v => (.ok (.val v), s)
          | none =>
            match run env fuel (.createBeanInstance d) s with
            | (.ok r, s') =>
                (.ok (.val r.asVal),
                 { s' with singleton_instances := dictSet s'.singleton_instances n r.asVal })
            | (.error e, s') => (.error e, s')
        | .prototype => run env fuel (.createBeanInstance d) s
        | sc => (.error (.unsupportedScope n sc), s)
    | .createBeanInstance d =>
      -- _create_bean_instance: add to the in-flight set, run the per-scope
      -- creation, wrap any exception as BeanCreationException(name, str(e)),
      -- and discard from the in-flight set on every exit path (finally).
      let n := d.bean_name
      let s1 := { s with creating_beans := setAdd s.creating_beans n }
      let res :=
        match d.scope with
        | .prototype => run env fuel (.createPrototypeWithPool d) s1
        | _ => run env fuel (.createSingletonWithCache d) s1
      match res with
      | (.ok r, s2) => (.ok r, { s2 with creating_beans := setDiscard s2.creating_beans n })
      | (.error e, s2) =>
          (.error (.beanCreationWrapped n e),
           { s2 with creating_beans := setDiscard s2.creating_beans n })
    | .createSingletonWithCache d =>
      -- _create_singleton_instance_with_cache: factory method, else
      -- constructor injection when the cached reflection reports parameters,
      -- else direct creation; then injection and initialization.
      let info := env.constructor_info d.bean_type
      let made : Except PyErr Value × FactoryState :=
        match d.factory_method with
        | some ft => (.ok (.obj ft s.next_oid), { s with next_oid := s.next_oid + 1 })
        | none =>
          match info with
          | [] => (.ok (.obj d.bean_type s.next_oid), { s with next_oid := s.next_oid + 1 })
          | _ :: _ =>
            match run env fuel (.resolveCtorDepsCached d info []) s with
            | (.ok _, s') =>
                (.ok (.obj d.bean_type s'.next_oid), { s' with next_oid := s'.next_oid + 1 })
            | (.error e, s') => (.error e, s')
      match made with
      | (.error e, s') => (.error e, s')
      | (.ok v, s') =>
        match run env fuel (.performInjection v d) s' with
        | (.ok _, s'') => (.ok (.val v), s'')
        | (.error e, s'') => (.error e, s'')
    | .createPrototypeWithPool d =>
      -- _create_prototype_instance_with_pool: pooled acquisition, falling
      -- back to direct creation on OSError/ValueError/KeyError only.
      match run env fuel (.poolGetObject d.bean_type d) s with
      | (.ok r, s') => (.ok r, s')
      | (.error e, s') =>
          if e.isPoolFallback then run env fuel (.createSingletonWithCache d) s'
          else (.error e, s')
    | .resolveCtorDepsCached d params acc =>
      -- _resolve_constructor_dependencies_cached: primitive parameters take
      -- the cached default with no lookup; otherwise lookup by the
      -- definition's qualifier for this parameter name, else by type when the
      -- type guard passes, else the dependency is None.
      match params with
      | [] => (.ok (.vals acc), s)
      | p :: rest =>
        if isPrimitiveType p.param_type then
          run env fuel (.resolveCtorDepsCached d rest (acc ++ [p.default_value])) s
        else
          match findQualifier d.constructor_args p.name with
          | some q =>
            match run env fuel (.getBean q) s with
            | (.ok r, s') =>
                run env fuel (.resolveCtorDepsCached d rest (acc ++ [r.asVal])) s'
            | (.error e, s') => (.error e, s')
          | none =>
            if typeGuard p.param_type then
              match run env fuel (.getBeanByType p.param_type none) s with
              | (.ok r, s') =>
                  run env fuel (.resolveCtorDepsCached d rest (acc ++ [r.asVal])) s'
              | (.error e, s') => (.error e, s')
            else
              run env fuel (.resolveCtorDepsCached d rest (acc ++ [.vnone])) s
    | .performInjection v d =>
      -- _perform_injection_and_initialization: autowired-field injection is
      -- vacuous (the embedding's classes declare no autowired fields), then
      -- setter injection, then the declared init hook (the PostConstruct scan
      -- is vacuous for the same reason).
      match run env fuel (.injectSetters v d d.setter_dependencies) s with
      | (.error e, s') => (.error e, s')
      | (.ok _, s') =>
        match d.init_method with
        | some m =>
          match env.hook_raises m v with
          | some k => (.error (.hookException k m), s')
          | none => (.ok (.val .vnone), s')
        | none => (.ok (.val .vnone), s')
    | .injectSetters v d deps =>
      -- _inject_setter_dependencies: resolve each dependency by qualifier or
      -- type; a failure raises DependencyInjectionException when the
      -- dependency is required and is logged and skipped otherwise (the
      -- setter call itself is effect-free on the container state).
      match deps with
      | [] => (.ok (.val .vnone), s)
      | dep :: rest =>
        let res :=
          match dep.qualifier with
          | some q => run env fuel (.getBean q) s
          | none => run env fuel (.getBeanByType dep.dependency_type none) s
        match res with
        | (.ok _, s') => run env fuel (.injectSetters v d rest) s'
        | (.error _, s') =>
            if dep.required then (.error (.setterInjectionFailure dep.name), s')
            else run env fuel (.injectSetters v d rest) s'
    | .poolGetObject t d =>
      -- PrototypeObjectPool.get_prototype_instance: get_pool creates the pool
      -- (warming up min_size instances) on first use — the pool is stored
      -- only if warm-up succeeds, since ObjectPool.__init__ would raise —
      -- then ObjectPool.get_object pops an idle object or calls the factory.
      match dictGet s.pools t with
      | none =>
        match run env fuel (.poolWarmUp t d poolDefaultMinSize []) s with
        | (.error e, s') => (.error e, s')
        | (.ok r, s') =>
          let objs := match r with | .vals vs => vs | .val _ => []
          let pst : PoolState :=
            { pool := objs
              in_use := []
              total_created := objs.length
              total_reused := 0
              max_size := poolDefaultMaxSize
              min_size := poolDefaultMinSize }
          run env fuel (.poolGetObject t d) { s' with pools := dictSet s'.pools t pst }
      | some pst =>
        match pst.pool with
        | obj :: rest =>
          let pst' :=
            { pst with
                pool := rest
                total_reused := pst.total_reused + 1
                in_use := setAddV pst.in_use obj }
          (.ok (.val obj), { s with pools := dictSet s.pools t pst' })
        | [] =>
          match run env fuel (.createSingletonWithCache d) s with
          | (.error e, s') => (.error e, s')
          | (.ok r, s') =>
            let v := r.asVal
            -- the factory may itself have touched the pool table; re-read it
            -- as the Python closure reads the live object.
            let pst2 := (dictGet s'.pools t).getD pst
            let pst2' :=
              { pst2 with
                  total_created := pst2.total_created + 1
                  in_use := setAddV pst2.in_use v }
            (.ok (.val v), { s' with pools := dictSet s'.pools t pst2' })
    | .poolWarmUp t d n acc =>
      -- ObjectPool._warm_up: min_size factory calls, each appended to the
      -- idle deque (modelled by the accumulator, committed by the caller).
      match n with
      | 0 => (.ok (.vals acc), s)
      | m + 1 =>
        match run env fuel (.createSingletonWithCache d) s with
        | (.error e, s') => (.error e, s')
        | (.ok r, s') => run env fuel (.poolWarmUp t d m (acc ++ [r.asVal])) s'

/-- `DependencyResolver._resolve_single_dependency` (container/
dependency_resolver.py): lookup by qualifier, else by type, delegated to the
factory; only `NoSuchBeanDefinitionException` is caught, and then a stored
non-None default is substituted (the `required` flag plays no part), else
`DependencyInjectionException` is raised naming the failed dependency. -/
def resolve_single_dependency (env : PyEnv) (fuel : Nat) (s : FactoryState)
    (dependency_type : PyType) (qualifier : Option String) (default_value : Value) :
    Except PyErr Value × FactoryState :=
  let looked :=
    match qualifier with
    | some q => run env fuel (.getBean q) s
    | none => run env fuel (.getBeanByType dependency_type none) s
  match looked with
  | (.ok r, s') => (.ok r.asVal, s')
  | (.error e, s') =>
    if e.isNoSuchBean then
      if default_value ≠ .vnone then (.ok default_value, s')
      else (.error (.dependencyResolutionFailure dependency_type qualifier), s')
    else (.error e, s')

/-- `DependencyResolver.resolve_constructor_dependencies`: the loop over
`definition.constructor_args` with its `dependencies` accumulator; primitive
parameter types take the stored default directly, everything else goes through
`_resolve_single_dependency`. -/
def resolve_constructor_dependencies (env : PyEnv) (fuel : Nat) :
    FactoryState → List ConstructorArgument → List Value →
    Except PyErr (List Value) × FactoryState
  | s, [], acc => (.ok acc, s)
  | s, arg :: rest, acc =>
    if isPrimitiveType arg.param_type then
      resolve_constructor_dependencies env fuel s rest (acc ++ [arg.default_value])
    else
      match resolve_single_dependency env fuel s arg.param_type arg.qualifier arg.default_value with
      | (.ok v, s') => resolve_constructor_dependencies env fuel s' rest (acc ++ [v])
      | (.error e, s') => (.error e, s')

/-- The loop body of `BeanFactory.destroy_singletons`: iterate the live
singletons in store order; for each whose definition declares a destroy
method, invoke it, swallowing `AttributeError` and `TypeError` only (the
`except (AttributeError, TypeError)` clause); any other exception propagates,
aborting the loop. Returns the names whose hook was invoked and the
propagating exception, if any. -/
def destroyHooksLoop (env : PyEnv) (defs : List (String × BeanDefinition)) :
    List (String × Value) → List String × Option ExcKind
  | [] => ([], none)
  | (n, v) :: rest =>
    match dictGet defs n with
    | none => destroyHooksLoop env defs rest
    | some d =>
      match d.destroy_method with
      | none => destroyHooksLoop env defs rest
      | some m =>
        match env.hook_raises m v with
        | none =>
            let r := destroyHooksLoop env defs rest
            (n :: r.1, r.2)
        | some k =>
            if k = .attributeError ∨ k = .typeError then
              let r := destroyHooksLoop env defs rest
              (n :: r.1, r.2)
            else ([n], some k)

/-- `BeanFactory.destroy_singletons`: run the destroy hooks over the live
singletons, then clear the singleton store — the clear only happens when no
exception propagated out of the loop (a propagating hook exception leaves the
factory state untouched). Returns the invoked hook names and either the
cleared state or the propagating exception class. -/
def destroy_singletons (env : PyEnv) (s : FactoryState) :
    List String × Except ExcKind FactoryState :=
  let r := destroyHooksLoop env s.bean_definitions s.singleton_instances
  match r.2 with
  | none => (r.1, .ok { s with singleton_instances := [] })
  | some k => (r.1, .error k)

/-- `ObjectPool.get_object` (extensions/object_pool.py) with an explicit
factory: pop the idle deque (a reuse, counted in `total_reused`) or invoke the
factory (counted in `total_created`); either way the object joins the in-use
set. `total_created` counts exactly the factory invocations. -/
def pool_get_object (factory : PoolState → Value × PoolState) (st : PoolState) :
    Value × PoolState :=
  match st.pool with
  | obj :: rest =>
      (obj,
       { st with
           pool := rest
           total_reused := st.total_reused + 1
           in_use := setAddV st.in_use obj })
  | [] =>
      let made := factory st
      (made.1,
       { made.2 with
           total_created := made.2.total_created + 1
           in_use := setAddV made.2.in_use made.1 })

/-- `ObjectPool.return_object` with an explicit reset hook: objects not in the
in-use set are ignored; a raising reset hook discards the object (removed from
in-use, not requeued) without propagating; otherwise the object is requeued
when the idle deque is under `max_size` and discarded when it is full. -/
def pool_return_object (reset_func : Option (Value → Option ExcKind))
    (st : PoolState) (obj : Value) : PoolState :=
  if obj ∈ st.in_use then
    let resetFailed :=
      match reset_func with
      | some f => (f obj).isSome
      | none => false
    if resetFailed then
      { st with in_use := setDiscardV st.in_use obj }
    else
      let st1 :=
        if st.pool.length < st.max_size then { st with pool := st.pool ++ [obj] } else st
      { st1 with in_use := setDiscardV st1.in_use obj }
  else st

/-- a sequence of `return_object` calls. -/
def releaseAll (reset_func : Option (Value → Option ExcKind))
    (st : PoolState) (vs : List Value) : PoolState :=
  vs.foldl (pool_return_object reset_func) st

/-- a sequence of `get_object` calls, collecting the returned objects. -/
def acquireN (factory : PoolState → Value × PoolState) :
    Nat → PoolState → List Value × PoolState
  | 0, st => ([], st)
  | n + 1, st =>
    let got := pool_get_object factory st
    let rest := acquireN factory n got.2
    (got.1 :: rest.1, rest.2)

/-- An environment whose classes have no constructor parameters and whose
hooks never raise. -/
def envTrivial : PyEnv :=
  { constructor_info := fun _ => []
    hook_raises := fun _ _ => none }

/-- a parameterless singleton definition used by concrete scenarios. -/
def defDatabase : BeanDefinition :=
  { bean_type := .cls "Database", bean_name := "database" }

/-- the factory holding just `defDatabase`. -/
def sDb : FactoryState := register_bean_definition FactoryState.empty defDatabase

/-! ### Dictionary and set lemmas -/

theorem dictGet_dictSet_self {α β : Type} [DecidableEq α]
    (d : List (α × β)) (k : α) (v : β) : dictGet (dictSet d k v) k = some v := by
  induction d with
  | nil => simp [dictGet, dictSet]
  | cons hd tl ih =>
    obtain ⟨k', v'⟩ := hd
    by_cases h : k' = k
    · subst h; simp [dictGet, dictSet]
    · simp [dictGet, dictSet, h, ih]

theorem dictGet_dictSet_ne {α β : Type} [DecidableEq α]
    (d : List (α × β)) (k k' : α) (v : β) (h : k ≠ k') :
    dictGet (dictSet d k v) k' = dictGet d k' := by
  induction d with
  | nil => simp [dictGet, dictSet, h]
  | cons hd tl ih =>
    obtain ⟨k₀, v₀⟩ := hd
    by_cases h₀ : k₀ = k
    · subst h₀; simp [dictGet, dictSet, h]
    · simp only [dictSet, if_neg h₀, dictGet]
      by_cases h₁ : k₀ = k'
      · simp [h₁]
      · simp [h₁, ih]

theorem filter_ne_self_of_not_mem (s : List String) (x : String) (h : x ∉ s) :
    s.filter (fun y => decide (y ≠ x)) = s := by
  apply List.filter_eq_self.mpr
  intro a ha
  simp only [decide_eq_true_eq]
  intro hax
  subst hax
  exact h ha

theorem setDiscard_setAdd_of_not_mem (s : List String) (x : String) (h : x ∉ s) :
    setDiscard (setAdd s x) x = s := by
  simp only [setAdd, if_neg h, setDiscard, List.filter_append,
    filter_ne_self_of_not_mem s x h, List.filter_cons, List.filter_nil]
  simp

theorem mem_setDiscardV_of_ne {s : List Value} {v x : Value}
    (hv : v ∈ s) (hne : v ≠ x) : v ∈ setDiscardV s x := by
  simp only [setDiscardV, List.mem_filter, decide_eq_true_eq]
  exact ⟨hv, hne⟩

/-! ### Interpreter invariants -/

/-- Two factory states with the same definition registry and type index. -/
abbrev RegEq (s s' : FactoryState) : Prop :=
  s'.bean_definitions = s.bean_definitions ∧
  s'.type_to_bean_names = s.type_to_bean_names

theorem regEq_refl {s : FactoryState} : RegEq s s := ⟨rfl, rfl⟩

theorem regEq_trans {s s' s'' : FactoryState}
    (h1 : RegEq s s') (h2 : RegEq s' s'') : RegEq s s'' :=
  ⟨h2.1.trans h1.1, h2.2.trans h1.2⟩

theorem regEq_of_run_eq {env : PyEnv} {f : Nat} {c : Call} {s : FactoryState}
    {r : Except PyErr RunRet} {s' : FactoryState}
    (h : run env f c s = (r, s'))
    (ih : ∀ (c : Call) (s : FactoryState), RegEq s ((run env f c s).2)) :
    RegEq s s' := by
  have hh := ih c s
  rw [h] at hh
  exact hh

/-- No embedded method writes the definition registry or the type index:
`run` preserves `bean_definitions` and `type_to_bean_names`. -/
theorem run_preserves_registry (env : PyEnv) :
    ∀ (fuel : Nat) (c : Call) (s : FactoryState), RegEq s ((run env fuel c s).2) := by
  intro fuel
  induction fuel with
  | zero => intro c s; exact regEq_refl
  | succ f ih =>
    intro c s
    cases c with
    | getBean n =>
      simp only [run]
      split
      · exact regEq_refl
      · exact ih _ _
    | getBeanTyped n t =>
      simp only [run]
      split
      · rename_i r s' heq
        have hx := regEq_of_run_eq heq ih
        split
        · exact hx
        · exact hx
      · rename_i e s' heq
        have hx := regEq_of_run_eq heq ih
        exact hx
    | getBeanByType t q =>
      simp only [run]
      repeat' split
      all_goals first
        | exact regEq_refl
        | exact ih _ _
    | getBeanByDefinition d =>
      simp only [run]
      split
      · exact regEq_refl
      · split
        · split
          · exact regEq_refl
          · split
            · rename_i r s' heq
              have hx := regEq_of_run_eq heq ih
              exact hx
            · rename_i e s' heq
              have hx := regEq_of_run_eq heq ih
              exact hx
        · exact ih _ _
        · exact regEq_refl
    | createBeanInstance d =>
      simp only [run]
      rcases hsc : d.scope <;> simp only [hsc] <;>
        · split
          · rename_i r s2 heq
            have hx := regEq_of_run_eq heq ih
            exact hx
          · rename_i e s2 heq
            have hx := regEq_of_run_eq heq ih
            exact hx
    | createSingletonWithCache d =>
      simp only [run]
      rcases hf : d.factory_method with _ | ft <;> simp only [hf]
      · rcases hi : env.constructor_info d.bean_type with _ | ⟨p, ps⟩ <;> simp only [hi]
        · split
          · rename_i r s2 heq2
            have hx := regEq_of_run_eq heq2 ih
            exact hx
          · rename_i e s2 heq2
            have hx := regEq_of_run_eq heq2 ih
            exact hx
        · rcases hr : run env f (.resolveCtorDepsCached d (p :: ps) []) s with ⟨e1 | r1, s1⟩
          · simp only [hr]
            have hx := regEq_of_run_eq hr ih
            exact hx
          · simp only [hr]
            have hx1 := regEq_of_run_eq hr ih
            split
            · rename_i r2 s2 heq2
              have hx2 := regEq_of_run_eq heq2 ih
              exact regEq_trans hx1 hx2
            · rename_i e2 s2 heq2
              have hx2 := regEq_of_run_eq heq2 ih
              exact regEq_trans hx1 hx2
      · split
        · rename_i r s2 heq2
          have hx := regEq_of_run_eq heq2 ih
          exact hx
        · rename_i e s2 heq2
          have hx := regEq_of_run_eq heq2 ih
          exact hx
    | createPrototypeWithPool d =>
      simp only [run]
      split
      · rename_i r s1 heq
        have hx := regEq_of_run_eq heq ih
        exact hx
      · rename_i e s1 heq
        have hx := regEq_of_run_eq heq ih
        split
        · exact regEq_trans hx (ih _ _)
        · exact hx
    | resolveCtorDepsCached d params acc =>
      simp only [run]
      rcases params with _ | ⟨p, rest⟩ <;> simp only []
      · exact regEq_refl
      · split
        · exact ih _ _
        · split
          · split
            · rename_i r s1 heq
              have hx := regEq_of_run_eq heq ih
              exact regEq_trans hx (ih _ _)
            · rename_i e s1 heq
              have hx := regEq_of_run_eq heq ih
              exact hx
          · split
            · split
              · rename_i r s1 heq
                have hx := regEq_of_run_eq heq ih
                exact regEq_trans hx (ih _ _)
              · rename_i e s1 heq
                have hx := regEq_of_run_eq heq ih
                exact hx
            · exact ih _ _
    | performInjection v d =>
      simp only [run]
      split
      · rename_i e s1 heq
        have hx := regEq_of_run_eq heq ih
        exact hx
      · rename_i r s1 heq
        have hx := regEq_of_run_eq heq ih
        rcases hm : d.init_method with _ | m <;> simp only [hm]
        · exact hx
        · split
          · exact hx
          · exact hx
    | injectSetters v d deps =>
      simp only [run]
      rcases deps with _ | ⟨dep, rest⟩ <;> simp only []
      · exact regEq_refl
      · rcases hq : dep.qualifier with _ | q <;> simp only [hq] <;>
          · split
            · rename_i r s1 heq
              have hx := regEq_of_run_eq heq ih
              exact regEq_trans hx (ih _ _)
            · rename_i e s1 heq
              have hx := regEq_of_run_eq heq ih
              split
              · exact hx
              · exact regEq_trans hx (ih _ _)
    | poolGetObject t d =>
      simp only [run]
      split
      · split
        · rename_i e s1 heq
          have hx := regEq_of_run_eq heq ih
          exact hx
        · rename_i r s1 heq
          have hx := regEq_of_run_eq heq ih
          exact regEq_trans hx (ih _ _)
      · split
        · exact regEq_refl
        · split
          · rename_i e s1 heq
            have hx := regEq_of_run_eq heq ih
            exact hx
          · rename_i r s1 heq
            have hx := regEq_of_run_eq heq ih
            exact hx
    | poolWarmUp t d n acc =>
      simp only [run]
      rcases n with _ | m <;> simp only []
      · exact regEq_refl
      · split
        · rename_i e s1 heq
          have hx := regEq_of_run_eq heq ih
          exact hx
        · rename_i r s1 heq
          have hx := regEq_of_run_eq heq ih
          exact regEq_trans hx (ih _ _)

/-- Guard for in-flight preservation: `_create_bean_instance` is only entered
when its bean is not already in flight (`_get_bean_by_definition` checks
first); every other call preserves the in-flight set unconditionally. -/
def inflightGuard : Call → FactoryState → Prop
  | .createBeanInstance d, s => d.bean_name ∉ s.creating_beans
  | _, _ => True

/-- Two factory states with the same in-flight set. -/
abbrev CrEq (s s' : FactoryState) : Prop :=
  s'.creating_beans = s.creating_beans

theorem crEq_refl {s : FactoryState} : CrEq s s := rfl

theorem crEq_trans {s s' s'' : FactoryState}
    (h1 : CrEq s s') (h2 : CrEq s' s'') : CrEq s s'' :=
  Eq.trans h2 h1

theorem crEq_of_run_eq {env : PyEnv} {f : Nat} {c : Call} {s : FactoryState}
    {r : Except PyErr RunRet} {s' : FactoryState}
    (h : run env f c s = (r, s'))
    (hg : inflightGuard c s)
    (ih : ∀ (c : Call) (s : FactoryState), inflightGuard c s → CrEq s ((run env f c s).2)) :
    CrEq s s' := by
  have hh := ih c s hg
  rw [h] at hh
  exact hh

/-- The in-flight set (`_creating_beans`) is restored on every exit path:
`add` in `_create_bean_instance` is always matched by the `finally` `discard`,
and no other method touches the set. -/
theorem run_preserves_inflight (env : PyEnv) :
    ∀ (fuel : Nat) (c : Call) (s : FactoryState),
      inflightGuard c s → CrEq s ((run env fuel c s).2) := by
  intro fuel
  induction fuel with
  | zero => intro c s _; exact crEq_refl
  | succ f ih =>
    intro c s hg
    cases c with
    | getBean n =>
      simp only [run]
      split
      · exact crEq_refl
      · exact ih _ _ (by trivial)
    | getBeanTyped n t =>
      simp only [run]
      split
      · rename_i r s' heq
        have hx := crEq_of_run_eq heq True.intro ih
        split
        · exact hx
        · exact hx
      · rename_i e s' heq
        have hx := crEq_of_run_eq heq True.intro ih
        exact hx
    | getBeanByType t q =>
      simp only [run]
      repeat' split
      all_goals first
        | exact crEq_refl
        | exact ih _ _ (by trivial)
    | getBeanByDefinition d =>
      simp only [run]
      split
      · exact crEq_refl
      · rename_i hnotin
        split
        · split
          · exact crEq_refl
          · split
            · rename_i r s' heq
              have hx := crEq_of_run_eq heq hnotin ih
              exact hx
            · rename_i e s' heq
              have hx := crEq_of_run_eq heq hnotin ih
              exact hx
        · exact ih _ _ hnotin
        · exact crEq_refl
    | createBeanInstance d =>
      simp only [run]
      rcases hsc : d.scope <;> simp only [hsc] <;>
        · split
          · rename_i r s2 heq
            have hx := crEq_of_run_eq heq True.intro ih
            show setDiscard s2.creating_beans d.bean_name = s.creating_beans
            rw [hx]
            exact setDiscard_setAdd_of_not_mem _ _ hg
          · rename_i e s2 heq
            have hx := crEq_of_run_eq heq True.intro ih
            show setDiscard s2.creating_beans d.bean_name = s.creating_beans
            rw [hx]
            exact setDiscard_setAdd_of_not_mem _ _ hg
    | createSingletonWithCache d =>
      simp only [run]
      rcases hf : d.factory_method with _ | ft <;> simp only [hf]
      · rcases hi : env.constructor_info d.bean_type with _ | ⟨p, ps⟩ <;> simp only [hi]
        · split
          · rename_i r s2 heq2
            have hx := crEq_of_run_eq heq2 True.intro ih
            exact hx
          · rename_i e s2 heq2
            have hx := crEq_of_run_eq heq2 True.intro ih
            exact hx
        · rcases hr : run env f (.resolveCtorDepsCached d (p :: ps) []) s with ⟨e1 | r1, s1⟩
          · simp only [hr]
            have hx := crEq_of_run_eq hr True.intro ih
            exact hx
          · simp only [hr]
            have hx1 := crEq_of_run_eq hr True.intro ih
            split
            · rename_i r2 s2 heq2
              have hx2 := crEq_of_run_eq heq2 True.intro ih
              exact crEq_trans hx1 hx2
            · rename_i e2 s2 heq2
              have hx2 := crEq_of_run_eq heq2 True.intro ih
              exact crEq_trans hx1 hx2
      · split
        · rename_i r s2 heq2
          have hx := crEq_of_run_eq heq2 True.intro ih
          exact hx
        · rename_i e s2 heq2
          have hx := crEq_of_run_eq heq2 True.intro ih
          exact hx
    | createPrototypeWithPool d =>
      simp only [run]
      split
      · rename_i r s1 heq
        have hx := crEq_of_run_eq heq True.intro ih
        exact hx
      · rename_i e s1 heq
        have hx := crEq_of_run_eq heq True.intro ih
        split
        · exact crEq_trans hx (ih _ _ (by trivial))
        · exact hx
    | resolveCtorDepsCached d params acc =>
      simp only [run]
      rcases params with _ | ⟨p, rest⟩
      · exact crEq_refl
      · simp only []
        split
        · exact ih _ _ (by trivial)
        · split
          · split
            · rename_i r s1 heq
              have hx := crEq_of_run_eq heq True.intro ih
              exact crEq_trans hx (ih _ _ (by trivial))
            · rename_i e s1 heq
              have hx := crEq_of_run_eq heq True.intro ih
              exact hx
          · split
            · split
              · rename_i r s1 heq
                have hx := crEq_of_run_eq heq True.intro ih
                exact crEq_trans hx (ih _ _ (by trivial))
              · rename_i e s1 heq
                have hx := crEq_of_run_eq heq True.intro ih
                exact hx
            · exact ih _ _ (by trivial)
    | performInjection v d =>
      simp only [run]
      split
      · rename_i e s1 heq
        have hx := crEq_of_run_eq heq True.intro ih
        exact hx
      · rename_i r s1 heq
        have hx := crEq_of_run_eq heq True.intro ih
        rcases hm : d.init_method with _ | m <;> simp only [hm]
        · exact hx
        · split
          · exact hx
          · exact hx
    | injectSetters v d deps =>
      simp only [run]
      rcases deps with _ | ⟨dep, rest⟩
      · exact crEq_refl
      · simp only []
        rcases hq : dep.qualifier with _ | q <;> simp only [hq] <;>
          · split
            · rename_i r s1 heq
              have hx := crEq_of_run_eq heq True.intro ih
              exact crEq_trans hx (ih _ _ (by trivial))
            · rename_i e s1 heq
              have hx := crEq_of_run_eq heq True.intro ih
              split
              · exact hx
              · exact crEq_trans hx (ih _ _ (by trivial))
    | poolGetObject t d =>
      simp only [run]
      split
      · split
        · rename_i e s1 heq
          have hx := crEq_of_run_eq heq True.intro ih
          exact hx
        · rename_i r s1 heq
          have hx := crEq_of_run_eq heq True.intro ih
          exact crEq_trans hx (ih _ _ (by trivial))
      · split
        · exact crEq_refl
        · split
          · rename_i e s1 heq
            have hx := crEq_of_run_eq heq True.intro ih
            exact hx
          · rename_i r s1 heq
            have hx := crEq_of_run_eq heq True.intro ih
            exact hx
    | poolWarmUp t d n acc =>
      simp only [run]
      rcases n with _ | m
      · exact crEq_refl
      · simp only []
        split
        · rename_i e s1 heq
          have hx := crEq_of_run_eq heq True.intro ih
          exact hx
        · rename_i r s1 heq
          have hx := crEq_of_run_eq heq True.intro ih
          exact crEq_trans hx (ih _ _ (by trivial))

/-- Anatomy of a successful `get_bean` on a registered singleton definition:
the bean was not in flight, and the returned instance is exactly what the
singleton store holds afterwards (`_get_bean_by_definition` publishes the
created instance under the name and returns the stored entry). -/
theorem getBean_singleton_ok (env : PyEnv) (fuel : Nat) (s : FactoryState)
    (n : String) (d : BeanDefinition) (r : RunRet) (s₁ : FactoryState)
    (hd : dictGet s.bean_definitions n = some d)
    (hn : d.bean_name = n)
    (hs : d.scope = .singleton)
    (h : run env fuel (.getBean n) s = (.ok r, s₁)) :
    n ∉ s.creating_beans ∧ dictGet s₁.singleton_instances n = some r.asVal := by
  match fuel with
  | 0 => exact absurd h (by simp [run])
  | 1 =>
    simp only [run, hd] at h
    exact absurd h (by simp)
  | f + 2 =>
    simp only [run, hd, hn, hs] at h
    by_cases hc : n ∈ s.creating_beans
    · rw [if_pos hc] at h
      exact absurd h (by simp)
    · rw [if_neg hc] at h
      refine ⟨hc, ?_⟩
      rcases hsing : dictGet s.singleton_instances n with _ | v
      · rw [hsing] at h
        rcases hcr : run env f (.createBeanInstance d) s with ⟨e1 | r1, s2⟩
        · rw [hcr] at h
          exact absurd h (by simp)
        · rw [hcr] at h
          simp only [Prod.mk.injEq, Except.ok.injEq] at h
          obtain ⟨hr, hs1⟩ := h
          rw [← hs1, ← hr]
          exact dictGet_dictSet_self _ _ _
      · rw [hsing] at h
        simp only [Prod.mk.injEq, Except.ok.injEq] at h
        obtain ⟨hr, hs1⟩ := h
        rw [← hs1, ← hr]
        exact hsing

/-- the state of `sDb` after the first successful `get_bean("database")`. -/
def sDbAfter : FactoryState :=
  { sDb with
      singleton_instances := [("database", .obj (.cls "Database") 0)]
      next_oid := 1 }

/-- C1: for a registered singleton-scoped name, a successful `get(n)` leaves
the returned instance in the singleton store under `n`, and every later
`get(n)` (with enough fuel) returns exactly that stored instance and leaves
the state untouched: the instance is constructed at most once and all later
lookups return the stored object. -/
theorem C1_singleton_repeat_get (env : PyEnv) (fuel : Nat) (s : FactoryState)
    (n : String) (d : BeanDefinition) (r : RunRet) (s₁ : FactoryState)
    (hd : dictGet s.bean_definitions n = some d)
    (hn : d.bean_name = n)
    (hs : d.scope = .singleton)
    (h : run env fuel (.getBean n) s = (.ok r, s₁)) :
    dictGet s₁.singleton_instances n = some r.asVal ∧
    ∀ f', run env (f' + 2) (.getBean n) s₁ = (.ok (.val r.asVal), s₁) := by
  obtain ⟨hc, hstored⟩ := getBean_singleton_ok env fuel s n d r s₁ hd hn hs h
  have hreg := run_preserves_registry env fuel (.getBean n) s
  rw [h] at hreg
  have hcr := run_preserves_inflight env fuel (.getBean n) s (by trivial)
  rw [h] at hcr
  refine ⟨hstored, ?_⟩
  intro f'
  have hd₁ : dictGet s₁.bean_definitions n = some d := by
    rw [show s₁.bean_definitions = s.bean_definitions from hreg.1]
    exact hd
  have hc₁ : n ∉ s₁.creating_beans := by
    rw [show s₁.creating_beans = s.creating_beans from hcr]
    exact hc
  simp only [run, hd₁, hn, hs, hstored]
  rw [if_neg hc₁]

/-- witness for C1: the `database` singleton, created once at the first get
and returned identically (same object id 0, untouched state) by a second. -/
theorem C1_witness :
    dictGet sDb.bean_definitions "database" = some defDatabase ∧
    defDatabase.bean_name = "database" ∧
    defDatabase.scope = .singleton ∧
    run envTrivial 10 (.getBean "database") sDb =
      (.ok (.val (.obj (.cls "Database") 0)), sDbAfter) ∧
    dictGet sDbAfter.singleton_instances "database" =
      some (.obj (.cls "Database") 0) ∧
    run envTrivial 5 (.getBean "database") sDbAfter =
      (.ok (.val (.obj (.cls "Database") 0)), sDbAfter) :=
  have happ := C1_singleton_repeat_get envTrivial 10 sDb "database" defDatabase
    (.val (.obj (.cls "Database") 0)) sDbAfter (by rfl) rfl rfl (by rfl)
  ⟨by rfl, rfl, rfl, by rfl, happ.1, happ.2 3⟩

/-- C8: a registered definition whose scope is neither singleton nor prototype
makes `get(name)` fail with the unsupported-scope configuration error
(`BeanCreationException(name, "Unsupported scope: ...")`), leaving the state
unchanged — so any retry is the very same call on the very same state and
fails identically. -/
theorem C8_unsupported_scope (env : PyEnv) (fuel : Nat) (s : FactoryState)
    (n : String) (d : BeanDefinition)
    (hd : dictGet s.bean_definitions n = some d)
    (hn : d.bean_name = n)
    (h1 : d.scope ≠ .singleton)
    (h2 : d.scope ≠ .prototype)
    (hc : n ∉ s.creating_beans) :
    run env (fuel + 2) (.getBean n) s = (.error (.unsupportedScope n d.scope), s) := by
  simp only [run, hd, hn]
  rw [if_neg hc]

/-- a request-scoped definition (no scope manager in the core factory). -/
def defSess : BeanDefinition :=
  { bean_type := .cls "Sess", bean_name := "sess", scope := .request }

/-- the factory holding just `defSess`. -/
def sSess : FactoryState := register_bean_definition FactoryState.empty defSess

/-- witness for C8: getting the request-scoped `sess` fails with the
unsupported-scope error and changes nothing. -/
theorem C8_witness :
    dictGet sSess.bean_definitions "sess" = some defSess ∧
    defSess.scope = .request ∧
    run envTrivial 2 (.getBean "sess") sSess =
      (.error (.unsupportedScope "sess" .request), sSess) :=
  have happ := C8_unsupported_scope envTrivial 0 sSess "sess" defSess (by rfl) rfl
    (by decide) (by decide) (by decide)
  ⟨by rfl, rfl, happ⟩

/-- definition of bean `A`, whose constructor depends on `B` by name. -/
def defA : BeanDefinition :=
  { bean_type := .cls "A", bean_name := "A",
    constructor_args := [{ name := "dep", param_type := .cls "B", qualifier := some "B" }] }

/-- definition of bean `B`, whose constructor depends on `C` by name. -/
def defB : BeanDefinition :=
  { bean_type := .cls "B", bean_name := "B",
    constructor_args := [{ name := "dep", param_type := .cls "C", qualifier := some "C" }] }

/-- definition of bean `C`, whose constructor depends on `A` by name,
closing the cycle. -/
def defC : BeanDefinition :=
  { bean_type := .cls "C", bean_name := "C",
    constructor_args := [{ name := "dep", param_type := .cls "A", qualifier := some "A" }] }

/-- reflection for the cycle scenario: each class has the one constructor
parameter its definition declares. -/
def envCycle : PyEnv :=
  { constructor_info := fun t =>
      match t with
      | .cls "A" =>
          [{ name := "dep", param_type := .cls "B", required := true, default_value := .vnone }]
      | .cls "B" =>
          [{ name := "dep", param_type := .cls "C", required := true, default_value := .vnone }]
      | .cls "C" =>
          [{ name := "dep", param_type := .cls "A", required := true, default_value := .vnone }]
      | _ => []
    hook_raises := fun _ _ => none }

/-- the factory with the registered cycle A → B → C → A. -/
def sCycle : FactoryState :=
  register_bean_definition
    (register_bean_definition (register_bean_definition FactoryState.empty defA) defB) defC

/-- The error component of a result (total; a non-error maps to the
model-only `outOfFuel` placeholder). -/
def raisedErr : Except PyErr RunRet → PyErr
  | .error e => e
  | .ok _ => .outOfFuel

/-- Counterexample for C2: on the registered cycle A → B → C → A, `get(A)`
does not raise `CircularDependencyException` carrying a dependency chain —
that class (exceptions/harmony_exceptions.py, used only by the concurrent
factory's prototype path) never reaches the core path. What is raised is a
`BeanCreationException` for `A` wrapping, level by level, the inner
`BeanCreationException`s down to the circular-dependency report. -/
theorem C2_counterexample :
    (run envCycle 40 (.getBean "A") sCycle).1 =
      .error (.beanCreationWrapped "A" (.beanCreationWrapped "B" (.beanCreationWrapped "C"
        (.circularDependencyDetected "A" ["A", "B", "C"])))) ∧
    PyErr.isCircularDependencyExc (raisedErr (run envCycle 40 (.getBean "A") sCycle).1) =
      false :=
  ⟨rfl, rfl⟩

/-- C2 (amended): on the registered cycle A → B → C → A, `get(A)` raises a
`BeanCreationException` for `A` wrapping one for `B` wrapping one for `C`
wrapping the circular-dependency report, whose in-flight snapshot holds
exactly the names A, B and C; the whole factory state — in particular the
in-flight set — is restored, and in general the in-flight set is restored by
every `get_bean` call on every exit path. -/
theorem C2_cycle_behaviour :
    run envCycle 40 (.getBean "A") sCycle =
      (.error (.beanCreationWrapped "A" (.beanCreationWrapped "B" (.beanCreationWrapped "C"
        (.circularDependencyDetected "A" ["A", "B", "C"])))), sCycle) ∧
    (∀ (env : PyEnv) (fuel : Nat) (s : FactoryState) (n : String),
      ((run env fuel (.getBean n) s).2).creating_beans = s.creating_beans) := by
  refine ⟨rfl, ?_⟩
  intro env fuel s n
  exact run_preserves_inflight env fuel (.getBean n) s (by trivial)

/-- first registration under the name `dup`. -/
def defDup1 : BeanDefinition := { bean_type := .cls "Dup", bean_name := "dup" }

/-- second registration under the same name and type (differs in `lazy`). -/
def defDup2 : BeanDefinition :=
  { bean_type := .cls "Dup", bean_name := "dup", lazy := true }

/-- the factory after registering `dup` twice. -/
def sDup : FactoryState :=
  register_bean_definition (register_bean_definition FactoryState.empty defDup1) defDup2

/-- Counterexample for C3: registering a second definition under an already
registered name is not rejected — `register_bean_definition` returns normally,
silently replaces the stored definition, and appends the name to the type
index a second time, so neither the stored definition nor the type index is
left unchanged. -/
theorem C3_counterexample :
    defDup1.bean_name = defDup2.bean_name ∧
    defDup2 ≠ defDup1 ∧
    dictGet sDup.bean_definitions "dup" = some defDup2 ∧
    dictGet sDup.type_to_bean_names (.cls "Dup") = some ["dup", "dup"] := by
  refine ⟨rfl, ?_, rfl, rfl⟩
  decide

/-- Registering twice under one name and one declared type: the second call
replaces the stored definition and appends the name to the type index again. -/
theorem register_register_same_name_type (s : FactoryState) (d1 d2 : BeanDefinition)
    (n : String) (T : PyType)
    (hn1 : d1.bean_name = n) (hn2 : d2.bean_name = n)
    (ht1 : d1.bean_type = T) (ht2 : d2.bean_type = T) :
    dictGet (register_bean_definition (register_bean_definition s d1) d2).bean_definitions n
      = some d2 ∧
    dictGet (register_bean_definition (register_bean_definition s d1) d2).type_to_bean_names T
      = some ((dictGet s.type_to_bean_names T).getD [] ++ [n, n]) := by
  simp only [register_bean_definition, hn1, hn2, ht1, ht2, dictGet_dictSet_self,
    Option.getD_some]
  simp

/-- C3 (amended): registering a duplicate name raises no error at all:
the second `register_bean_definition` silently replaces the stored definition
under the name and appends the name to the type index once more. -/
theorem C3_duplicate_register_replaces (s : FactoryState) (d1 d2 : BeanDefinition)
    (n : String) (T : PyType)
    (hn1 : d1.bean_name = n) (hn2 : d2.bean_name = n)
    (ht1 : d1.bean_type = T) (ht2 : d2.bean_type = T) :
    dictGet (register_bean_definition (register_bean_definition s d1) d2).bean_definitions n
      = some d2 ∧
    dictGet (register_bean_definition (register_bean_definition s d1) d2).type_to_bean_names T
      = some ((dictGet s.type_to_bean_names T).getD [] ++ [n, n]) :=
  register_register_same_name_type s d1 d2 n T hn1 hn2 ht1 ht2

/-- witness for the amended C3 at the concrete duplicate registration. -/
theorem C3_witness :
    dictGet sDup.bean_definitions "dup" = some defDup2 ∧
    dictGet sDup.type_to_bean_names (.cls "Dup") =
      some ((dictGet FactoryState.empty.type_to_bean_names (.cls "Dup")).getD []
        ++ ["dup", "dup"]) :=
  C3_duplicate_register_replaces FactoryState.empty defDup1 defDup2 "dup" (.cls "Dup")
    rfl rfl rfl rfl

/-- C10: registering twice under the same name and declared type silently
replaces the stored definition but leaves the name twice in the type index;
a qualifier-less `get_bean_by_type` for that type then sees two candidate
names and raises the multiple-candidates error although only one definition
is stored. -/
theorem C10_duplicate_register_poisons_type_index (env : PyEnv) (fuel : Nat)
    (s s2 : FactoryState) (d1 d2 : BeanDefinition) (n : String) (T : PyType)
    (hs2 : s2 = register_bean_definition (register_bean_definition s d1) d2)
    (hn1 : d1.bean_name = n) (hn2 : d2.bean_name = n)
    (ht1 : d1.bean_type = T) (ht2 : d2.bean_type = T)
    (hfresh : dictGet s.type_to_bean_names T = none)
    (hp : d2.primary = false) :
    dictGet s2.bean_definitions n = some d2 ∧
    dictGet s2.type_to_bean_names T = some [n, n] ∧
    run env (fuel + 1) (.getBeanByType T none) s2 =
      (.error (.multipleCandidates T [n, n]), s2) := by
  obtain ⟨hdefs, htypes⟩ :=
    register_register_same_name_type s d1 d2 n T hn1 hn2 ht1 ht2
  rw [hfresh] at htypes
  simp only [Option.getD_none, List.nil_append] at htypes
  rw [← hs2] at hdefs htypes
  refine ⟨hdefs, htypes, ?_⟩
  simp only [run, htypes, List.filter_cons, List.filter_nil, hdefs, hp]
  simp

/-- witness for C10 at the concrete `dup` double registration. -/
theorem C10_witness :
    dictGet sDup.bean_definitions "dup" = some defDup2 ∧
    dictGet sDup.type_to_bean_names (.cls "Dup") = some ["dup", "dup"] ∧
    run envTrivial 1 (.getBeanByType (.cls "Dup") none) sDup =
      (.error (.multipleCandidates (.cls "Dup") ["dup", "dup"]), sDup) :=
  C10_duplicate_register_poisons_type_index envTrivial 0 FactoryState.empty sDup
    defDup1 defDup2 "dup" (.cls "Dup") rfl rfl rfl rfl rfl rfl rfl

/-- One step of `_resolve_constructor_dependencies_cached` on a primitive
parameter: the stored default joins the accumulator; no lookup, no state
change. -/
theorem resolveCached_primitive_step (env : PyEnv) (fuel : Nat) (s : FactoryState)
    (d : BeanDefinition) (p : ParamInfo) (rest : List ParamInfo) (acc : List Value)
    (hprim : isPrimitiveType p.param_type = true) :
    run env (fuel + 1) (.resolveCtorDepsCached d (p :: rest) acc) s =
      run env fuel (.resolveCtorDepsCached d rest (acc ++ [p.default_value])) s := by
  simp only [run, hprim]
  simp

/-- An all-primitive parameter list resolves to exactly the stored defaults
against any factory state, leaving it untouched. -/
theorem resolveCached_all_primitive (env : PyEnv) (params : List ParamInfo) :
    ∀ (k : Nat) (s : FactoryState) (d : BeanDefinition) (acc : List Value),
      (∀ p ∈ params, isPrimitiveType p.param_type = true) →
      run env (params.length + k + 1) (.resolveCtorDepsCached d params acc) s =
        (.ok (.vals (acc ++ params.map ParamInfo.default_value)), s) := by
  induction params with
  | nil => intro k s d acc _; simp [run]
  | cons p ps ih =>
    intro k s d acc hall
    rw [show (p :: ps).length + k + 1 = (ps.length + k + 1) + 1 from by
      simp only [List.length_cons]; omega]
    rw [resolveCached_primitive_step env (ps.length + k + 1) s d p ps acc
      (hall p (List.mem_cons_self p ps))]
    rw [ih k s d (acc ++ [p.default_value])
      (fun q hq => hall q (List.mem_cons_of_mem p hq))]
    simp

/-- C4: a primitive-typed constructor parameter (bool/str/int/float/dict/list)
is resolved to exactly its stored default with no registry lookup and no state
change, in both resolvers: (1) one step of the cached loop
`_resolve_constructor_dependencies_cached` on a primitive parameter only
appends the default to the accumulator; (2) an all-primitive parameter list
resolves to exactly the defaults, for an arbitrary factory state (including
one with no registrations at all, so no lookup can have happened) and leaves
the state untouched; (3) the same step law for
`DependencyResolver.resolve_constructor_dependencies`. -/
theorem C4_primitive_params_use_defaults :
    (∀ (env : PyEnv) (fuel : Nat) (s : FactoryState) (d : BeanDefinition)
       (p : ParamInfo) (rest : List ParamInfo) (acc : List Value),
       isPrimitiveType p.param_type = true →
       run env (fuel + 1) (.resolveCtorDepsCached d (p :: rest) acc) s =
         run env fuel (.resolveCtorDepsCached d rest (acc ++ [p.default_value])) s) ∧
    (∀ (env : PyEnv) (k : Nat) (s : FactoryState) (d : BeanDefinition)
       (params : List ParamInfo) (acc : List Value),
       (∀ p ∈ params, isPrimitiveType p.param_type = true) →
       run env (params.length + k + 1) (.resolveCtorDepsCached d params acc) s =
         (.ok (.vals (acc ++ params.map ParamInfo.default_value)), s)) ∧
    (∀ (env : PyEnv) (fuel : Nat) (s : FactoryState) (arg : ConstructorArgument)
       (rest : List ConstructorArgument) (acc : List Value),
       isPrimitiveType arg.param_type = true →
       resolve_constructor_dependencies env fuel s (arg :: rest) acc =
         resolve_constructor_dependencies env fuel s rest (acc ++ [arg.default_value])) := by
  refine ⟨?_, ?_, ?_⟩
  · intro env fuel s d p rest acc hprim
    exact resolveCached_primitive_step env fuel s d p rest acc hprim
  · intro env k s d params acc hall
    exact resolveCached_all_primitive env params k s d acc hall
  · intro env fuel s arg rest acc hprim
    simp [resolve_constructor_dependencies, hprim]

/-- a primitive (bool-typed) constructor parameter with default `True`. -/
def pBoolParam : ParamInfo :=
  { name := "flag", param_type := .pbool, required := false, default_value := .vbool true }

/-- witness for C4: a single bool parameter resolves to its default `True`
against the empty factory, untouched. -/
theorem C4_witness :
    isPrimitiveType pBoolParam.param_type = true ∧
    run envTrivial 2 (.resolveCtorDepsCached defDatabase [pBoolParam] []) FactoryState.empty =
      (.ok (.vals [.vbool true]), FactoryState.empty) :=
  have happ := C4_primitive_params_use_defaults
  ⟨rfl, happ.2.1 envTrivial 0 FactoryState.empty defDatabase [pBoolParam] [] (by decide)⟩

/-- a required, non-primitive constructor argument with a stored default. -/
def argReq : ConstructorArgument :=
  { name := "x", param_type := .cls "Missing", required := true, default_value := .vint 7 }

/-- Counterexample for C5: a required dependency whose lookup fails (type
`Missing` has no registration in the empty factory) does not raise — the
stored non-None default 7 is substituted although `required = True`; the
`required` flag plays no part in `_resolve_single_dependency`. -/
theorem C5_counterexample :
    argReq.required = true ∧
    resolve_constructor_dependencies envTrivial 5 FactoryState.empty [argReq] [] =
      (.ok [.vint 7], FactoryState.empty) :=
  ⟨rfl, rfl⟩

/-- C5 (amended): when a dependency lookup fails with a
`NoSuchBeanDefinitionException`: a stored non-None default is substituted and
no error is raised, regardless of the `required` flag; with no stored default
(`None`), `DependencyInjectionException` is raised naming the failed
dependency's type/qualifier — and not the requesting component, which the
resolver never receives. The third part lifts this to
`resolve_constructor_dependencies` for a qualifier-less dependency on an
unregistered type. -/
theorem C5_failed_lookup_default_or_error :
    (∀ (env : PyEnv) (fuel : Nat) (s s' : FactoryState) (t : PyType)
       (q : Option String) (dv : Value) (e : PyErr),
       (match q with
        | some q' => run env fuel (.getBean q') s
        | none => run env fuel (.getBeanByType t none) s) = (.error e, s') →
       e.isNoSuchBean = true →
       dv ≠ .vnone →
       resolve_single_dependency env fuel s t q dv = (.ok dv, s')) ∧
    (∀ (env : PyEnv) (fuel : Nat) (s s' : FactoryState) (t : PyType)
       (q : Option String) (e : PyErr),
       (match q with
        | some q' => run env fuel (.getBean q') s
        | none => run env fuel (.getBeanByType t none) s) = (.error e, s') →
       e.isNoSuchBean = true →
       resolve_single_dependency env fuel s t q .vnone =
         (.error (.dependencyResolutionFailure t q), s')) ∧
    (∀ (env : PyEnv) (fuel : Nat) (s : FactoryState) (arg : ConstructorArgument)
       (acc : List Value),
       isPrimitiveType arg.param_type = false →
       arg.qualifier = none →
       dictGet s.type_to_bean_names arg.param_type = none →
       resolve_constructor_dependencies env (fuel + 1) s [arg] acc =
         (if arg.default_value ≠ .vnone then (.ok (acc ++ [arg.default_value]), s)
          else (.error (.dependencyResolutionFailure arg.param_type none), s))) := by
  refine ⟨?_, ?_, ?_⟩
  · intro env fuel s s' t q dv e h he hdv
    simp only [resolve_single_dependency]
    rw [h]
    simp [he, hdv]
  · intro env fuel s s' t q e h he
    simp only [resolve_single_dependency]
    rw [h]
    simp [he]
  · intro env fuel s arg acc hprim hq hfresh
    simp only [resolve_constructor_dependencies, hprim,
      resolve_single_dependency, hq]
    simp only [run, hfresh]
    simp only [PyErr.isNoSuchBean]
    by_cases hdv : arg.default_value = .vnone
    · simp [hdv]
    · simp [hdv, resolve_constructor_dependencies]

/-- witness for the amended C5: lookup of unregistered type `Missing` in the
empty factory fails; with default 7 the default is substituted, with default
None the dependency-resolution error names the type. -/
theorem C5_witness :
    run envTrivial 1 (.getBeanByType (.cls "Missing") none) FactoryState.empty =
      (.error (.noSuchBeanByType (.cls "Missing")), FactoryState.empty) ∧
    resolve_single_dependency envTrivial 1 FactoryState.empty (.cls "Missing") none (.vint 7) =
      (.ok (.vint 7), FactoryState.empty) ∧
    resolve_single_dependency envTrivial 1 FactoryState.empty (.cls "Missing") none .vnone =
      (.error (.dependencyResolutionFailure (.cls "Missing") none), FactoryState.empty) :=
  have happ := C5_failed_lookup_default_or_error
  ⟨rfl,
   happ.1 envTrivial 1 FactoryState.empty FactoryState.empty (.cls "Missing") none
     (.vint 7) (.noSuchBeanByType (.cls "Missing")) rfl rfl (by decide),
   happ.2.1 envTrivial 1 FactoryState.empty FactoryState.empty (.cls "Missing") none
     (.noSuchBeanByType (.cls "Missing")) rfl rfl⟩

/-- C6: with exactly two candidates of a declared type and no qualifier:
neither primary gives the multiple-candidates error; exactly one primary —
whichever of the two candidates carries the flag — makes `get_bean_by_type`
delegate to that primary (and return its instance, spelled out for a cached
singleton primary); two primaries give the multiple-primary error — so
resolution still fails. -/
theorem C6_primary_disambiguation (env : PyEnv) (fuel : Nat) (s : FactoryState)
    (T : PyType) (n1 n2 : String) (d1 d2 : BeanDefinition)
    (hT : dictGet s.type_to_bean_names T = some [n1, n2])
    (h1 : dictGet s.bean_definitions n1 = some d1)
    (h2 : dictGet s.bean_definitions n2 = some d2) :
    (d1.primary = false → d2.primary = false →
      run env (fuel + 1) (.getBeanByType T none) s =
        (.error (.multipleCandidates T [n1, n2]), s)) ∧
    (d1.primary = true → d2.primary = false →
      run env (fuel + 1) (.getBeanByType T none) s =
        run env fuel (.getBeanTyped n1 T) s) ∧
    (d1.primary = true → d2.primary = false →
      ∀ (v : Value),
        d1.bean_name = n1 → d1.scope = .singleton →
        n1 ∉ s.creating_beans →
        dictGet s.singleton_instances n1 = some v →
        typeOfValue v = T →
        run env (fuel + 4) (.getBeanByType T none) s = (.ok (.val v), s)) ∧
    (d1.primary = false → d2.primary = true →
      run env (fuel + 1) (.getBeanByType T none) s =
        run env fuel (.getBeanTyped n2 T) s) ∧
    (d1.primary = false → d2.primary = true →
      ∀ (v : Value),
        d2.bean_name = n2 → d2.scope = .singleton →
        n2 ∉ s.creating_beans →
        dictGet s.singleton_instances n2 = some v →
        typeOfValue v = T →
        run env (fuel + 4) (.getBeanByType T none) s = (.ok (.val v), s)) ∧
    (d1.primary = true → d2.primary = true →
      run env (fuel + 1) (.getBeanByType T none) s =
        (.error (.multiplePrimary T [n1, n2]), s)) := by
  refine ⟨?_, ?_, ?_, ?_, ?_, ?_⟩
  · intro hp1 hp2
    simp only [run, hT, List.filter_cons, List.filter_nil, h1, h2, hp1, hp2]
    simp
  · intro hp1 hp2
    simp only [run, hT, List.filter_cons, List.filter_nil, h1, h2, hp1, hp2]
    simp
  · intro hp1 hp2 v hn1 hsc1 hcr1 hsing hty
    have hfil : List.filter (fun nm =>
        match dictGet s.bean_definitions nm with
        | some d => d.primary
        | none => false) [n1, n2] = [n1] := by
      simp [List.filter_cons, List.filter_nil, h1, h2, hp1, hp2]
    simp only [run, hT, hfil, h1, hn1, hsc1, hsing]
    rw [if_neg hcr1]
    simp only [valueIsInstance]
    rw [if_pos (by exact decide_eq_true (by exact hty))]
  · intro hp1 hp2
    simp only [run, hT, List.filter_cons, List.filter_nil, h1, h2, hp1, hp2]
    simp
  · intro hp1 hp2 v hn2 hsc2 hcr2 hsing hty
    have hfil : List.filter (fun nm =>
        match dictGet s.bean_definitions nm with
        | some d => d.primary
        | none => false) [n1, n2] = [n2] := by
      simp [List.filter_cons, List.filter_nil, h1, h2, hp1, hp2]
    simp only [run, hT, hfil, h2, hn2, hsc2, hsing]
    rw [if_neg hcr2]
    simp only [valueIsInstance]
    rw [if_pos (by exact decide_eq_true (by exact hty))]
  · intro hp1 hp2
    simp only [run, hT, List.filter_cons, List.filter_nil, h1, h2, hp1, hp2]
    simp

/-- first service definition, not primary. -/
def defSvc1 : BeanDefinition := { bean_type := .cls "Svc", bean_name := "svc1" }

/-- second service definition, not primary. -/
def defSvc2 : BeanDefinition := { bean_type := .cls "Svc", bean_name := "svc2" }

/-- first service definition marked primary. -/
def defSvc1P : BeanDefinition :=
  { bean_type := .cls "Svc", bean_name := "svc1", primary := true }

/-- second service definition marked primary. -/
def defSvc2P : BeanDefinition :=
  { bean_type := .cls "Svc", bean_name := "svc2", primary := true }

/-- two same-type candidates, neither primary. -/
def sAmb : FactoryState :=
  register_bean_definition (register_bean_definition FactoryState.empty defSvc1) defSvc2

/-- two same-type candidates, exactly one primary, its singleton cached. -/
def sPrim : FactoryState :=
  { register_bean_definition (register_bean_definition FactoryState.empty defSvc1P) defSvc2 with
      singleton_instances := [("svc1", .obj (.cls "Svc") 0)]
      next_oid := 1 }

/-- two same-type candidates, only the second one primary, its singleton
cached. -/
def sPrim2 : FactoryState :=
  { register_bean_definition (register_bean_definition FactoryState.empty defSvc1) defSvc2P with
      singleton_instances := [("svc2", .obj (.cls "Svc") 1)]
      next_oid := 2 }

/-- two same-type candidates, both primary. -/
def sBoth : FactoryState :=
  register_bean_definition (register_bean_definition FactoryState.empty defSvc1P) defSvc2P

/-- witness for C6 at the four concrete two-candidate registries: neither
primary, first-only primary, second-only primary, both primary. -/
theorem C6_witness :
    run envTrivial 1 (.getBeanByType (.cls "Svc") none) sAmb =
      (.error (.multipleCandidates (.cls "Svc") ["svc1", "svc2"]), sAmb) ∧
    run envTrivial 5 (.getBeanByType (.cls "Svc") none) sPrim =
      (.ok (.val (.obj (.cls "Svc") 0)), sPrim) ∧
    run envTrivial 5 (.getBeanByType (.cls "Svc") none) sPrim2 =
      (.ok (.val (.obj (.cls "Svc") 1)), sPrim2) ∧
    run envTrivial 1 (.getBeanByType (.cls "Svc") none) sBoth =
      (.error (.multiplePrimary (.cls "Svc") ["svc1", "svc2"]), sBoth) :=
  have hA := C6_primary_disambiguation envTrivial 0 sAmb (.cls "Svc") "svc1" "svc2"
    defSvc1 defSvc2 rfl rfl rfl
  have hP := C6_primary_disambiguation envTrivial 1 sPrim (.cls "Svc") "svc1" "svc2"
    defSvc1P defSvc2 rfl rfl rfl
  have hP2 := C6_primary_disambiguation envTrivial 1 sPrim2 (.cls "Svc") "svc1" "svc2"
    defSvc1 defSvc2P rfl rfl rfl
  have hB := C6_primary_disambiguation envTrivial 0 sBoth (.cls "Svc") "svc1" "svc2"
    defSvc1P defSvc2P rfl rfl rfl
  ⟨hA.1 rfl rfl,
   hP.2.2.1 rfl rfl (.obj (.cls "Svc") 0) rfl rfl (by decide) rfl rfl,
   hP2.2.2.2.2.1 rfl rfl (.obj (.cls "Svc") 1) rfl rfl (by decide) rfl rfl,
   hB.2.2.2.2.2 rfl rfl⟩

/-- Releasing a list of distinct in-use objects (resets succeeding) into a
pool with enough room requeues them all, in order, creating nothing. -/
theorem releaseAll_spec (reset_func : Option (Value → Option ExcKind)) :
    ∀ (vs : List Value) (st : PoolState),
      vs.Nodup → (∀ v ∈ vs, v ∈ st.in_use) →
      (∀ (f : Value → Option ExcKind) (v : Value), reset_func = some f → v ∈ vs → f v = none) →
      st.pool.length + vs.length ≤ st.max_size →
      (releaseAll reset_func st vs).pool = st.pool ++ vs ∧
      (releaseAll reset_func st vs).total_created = st.total_created ∧
      (releaseAll reset_func st vs).max_size = st.max_size := by
  intro vs
  induction vs with
  | nil => intro st _ _ _ _; simp [releaseAll]
  | cons v rest ih =>
    intro st hnd hin hreset hcap
    obtain ⟨hvnotin, hndrest⟩ := List.nodup_cons.mp hnd
    have hv : v ∈ st.in_use := hin v (List.mem_cons_self v rest)
    have hlen : st.pool.length < st.max_size := by
      simp only [List.length_cons] at hcap; omega
    have hstep : pool_return_object reset_func st v =
        { st with pool := st.pool ++ [v], in_use := setDiscardV st.in_use v } := by
      simp only [pool_return_object, if_pos hv]
      rcases hrf : reset_func with _ | f
      · simp [hlen]
      · have hok := hreset f v hrf (List.mem_cons_self v rest)
        simp [hok, hlen]
    have hrest : releaseAll reset_func st (v :: rest) =
        releaseAll reset_func (pool_return_object reset_func st v) rest := rfl
    rw [hrest, hstep]
    have hih := ih { st with pool := st.pool ++ [v], in_use := setDiscardV st.in_use v }
      hndrest
      (fun w hw => mem_setDiscardV_of_ne (hin w (List.mem_cons_of_mem v hw))
        (fun e => hvnotin (e ▸ hw)))
      (fun f w hf hw => hreset f w hf (List.mem_cons_of_mem v hw))
      (by simp only [List.length_append, List.length_singleton, List.length_nil,
        List.length_cons] at hcap ⊢; omega)
    refine ⟨?_, hih.2.1, hih.2.2⟩
    rw [hih.1]
    simp

/-- `n` acquisitions from a pool holding at least `n` idle objects pop the
first `n` idle objects in order and never invoke the factory. -/
theorem acquireN_spec (factory : PoolState → Value × PoolState) :
    ∀ (n : Nat) (st : PoolState), n ≤ st.pool.length →
      (acquireN factory n st).1 = st.pool.take n ∧
      (acquireN factory n st).2.total_created = st.total_created := by
  intro n
  induction n with
  | zero => intro st _; simp [acquireN]
  | succ m ih =>
    intro st hle
    rcases hp : st.pool with _ | ⟨x, xs⟩
    · rw [hp] at hle; simp at hle
    · have hle' : m ≤ xs.length := by
        rw [hp] at hle; simp only [List.length_cons] at hle; omega
      have hget : pool_get_object factory st =
          (x,
           { st with
               pool := xs
               total_reused := st.total_reused + 1
               in_use := setAddV st.in_use x }) := by
        simp [pool_get_object, hp]
      simp only [acquireN, hget]
      have hih := ih
        { st with
            pool := xs
            total_reused := st.total_reused + 1
            in_use := setAddV st.in_use x } (by simpa using hle')
      constructor
      · simp only [List.take_succ_cons]
        rw [hih.1]
      · exact hih.2

/-- C7: (1) with pool capacity M, after the M in-use instances are released
back (distinct, resets succeeding — here no reset hook), the idle queue holds
exactly those M instances and the next M `get_object` calls return them in
order with `total_created` unchanged, i.e. without invoking the factory;
(2) `return_object` requeues the instance when the idle queue is under
capacity and discards it otherwise; (3) a raising reset hook makes
`return_object` discard the instance — it returns normally (the function is
total) instead of propagating. -/
theorem C7_pool_reuse_and_release :
    (∀ (M : Nat) (st : PoolState) (vs : List Value)
       (factory : PoolState → Value × PoolState),
       st.pool = [] → st.max_size = M → vs.length = M → vs.Nodup →
       (∀ v ∈ vs, v ∈ st.in_use) →
       (releaseAll none st vs).pool = vs ∧
       (releaseAll none st vs).total_created = st.total_created ∧
       (acquireN factory M (releaseAll none st vs)).1 = vs ∧
       (acquireN factory M (releaseAll none st vs)).2.total_created = st.total_created) ∧
    (∀ (reset_func : Option (Value → Option ExcKind)) (st : PoolState) (v : Value),
       v ∈ st.in_use → (∀ f, reset_func = some f → f v = none) →
       pool_return_object reset_func st v =
         if st.pool.length < st.max_size then
           { st with pool := st.pool ++ [v], in_use := setDiscardV st.in_use v }
         else { st with in_use := setDiscardV st.in_use v }) ∧
    (∀ (f : Value → Option ExcKind) (st : PoolState) (v : Value) (k : ExcKind),
       v ∈ st.in_use → f v = some k →
       pool_return_object (some f) st v =
         { st with in_use := setDiscardV st.in_use v }) := by
  refine ⟨?_, ?_, ?_⟩
  · intro M st vs factory hpool hmax hlen hnd hin
    have hrel := releaseAll_spec none vs st hnd hin (fun f v hf _ => nomatch hf)
      (by rw [hpool, hmax]; simp [hlen])
    have hpool1 : (releaseAll none st vs).pool = vs := by
      rw [hrel.1, hpool]; simp
    have hlen1 : M ≤ (releaseAll none st vs).pool.length := by
      rw [hpool1, hlen]
    have hacq := acquireN_spec factory M (releaseAll none st vs) hlen1
    refine ⟨hpool1, hrel.2.1, ?_, ?_⟩
    · rw [hacq.1, hpool1, ← hlen, List.take_length]
    · rw [hacq.2, hrel.2.1]
  · intro reset_func st v hv hok
    simp only [pool_return_object, if_pos hv]
    rcases hrf : reset_func with _ | f
    · by_cases hlen : st.pool.length < st.max_size <;> simp [hlen]
    · have := hok f hrf
      by_cases hlen : st.pool.length < st.max_size <;> simp [this, hlen]
  · intro f st v k hv hf
    simp [pool_return_object, if_pos hv, hf]

/-- two distinct pooled instances. -/
def oA : Value := .obj (.cls "P") 0

/-- the second pooled instance. -/
def oB : Value := .obj (.cls "P") 1

/-- a capacity-2 pool with both instances in use and an empty idle queue. -/
def poolSt : PoolState :=
  { pool := [], in_use := [oA, oB], total_created := 2, total_reused := 0,
    max_size := 2, min_size := 0 }

/-- a factory producing a fresh object (its invocation count is
`total_created`). -/
def poolFactory : PoolState → Value × PoolState :=
  fun st => (.obj (.cls "P") 99, st)

/-- witness for C7 at capacity M = 2: releasing both instances requeues them,
the next two acquisitions return them in order without creating anything, a
release into the now-full pool discards, and a failing reset hook discards. -/
theorem C7_witness :
    (releaseAll none poolSt [oA, oB]).pool = [oA, oB] ∧
    (releaseAll none poolSt [oA, oB]).total_created = poolSt.total_created ∧
    (acquireN poolFactory 2 (releaseAll none poolSt [oA, oB])).1 = [oA, oB] ∧
    (acquireN poolFactory 2 (releaseAll none poolSt [oA, oB])).2.total_created =
      poolSt.total_created ∧
    pool_return_object none poolSt oA =
      (if poolSt.pool.length < poolSt.max_size then
        { poolSt with
            pool := poolSt.pool ++ [oA]
            in_use := setDiscardV poolSt.in_use oA }
       else { poolSt with in_use := setDiscardV poolSt.in_use oA }) ∧
    pool_return_object (some (fun _ => some .valueError)) poolSt oA =
      { poolSt with in_use := setDiscardV poolSt.in_use oA } :=
  have happ := C7_pool_reuse_and_release
  have h1 := happ.1 2 poolSt [oA, oB] poolFactory rfl rfl rfl (by decide) (by decide)
  have h2 := happ.2.1 none poolSt oA (by decide) (fun f hf => nomatch hf)
  have h3 := happ.2.2 (fun _ => some .valueError) poolSt oA .valueError (by decide) rfl
  ⟨h1.1, h1.2.1, h1.2.2.1, h1.2.2.2, h2, h3⟩

/-- names of the live singletons whose definition declares a destroy hook, in
store order (the hooks `destroy_singletons` will invoke). -/
def hookNamesOf (defs : List (String × BeanDefinition)) :
    List (String × Value) → List String
  | [] => []
  | (n, _) :: rest =>
    match dictGet defs n with
    | some d =>
      match d.destroy_method with
      | some _ => n :: hookNamesOf defs rest
      | none => hookNamesOf defs rest
    | none => hookNamesOf defs rest

/-- When every declared destroy hook either returns or raises only
AttributeError/TypeError, the loop invokes them all and nothing propagates. -/
theorem destroyHooksLoop_swallow (env : PyEnv) (defs : List (String × BeanDefinition)) :
    ∀ (items : List (String × Value)),
      (∀ (n : String) (v : Value) (d : BeanDefinition) (m : String),
        (n, v) ∈ items → dictGet defs n = some d → d.destroy_method = some m →
        env.hook_raises m v = none ∨ env.hook_raises m v = some .attributeError ∨
          env.hook_raises m v = some .typeError) →
      destroyHooksLoop env defs items = (hookNamesOf defs items, none) := by
  intro items
  induction items with
  | nil => intro _; rfl
  | cons p rest ih =>
    obtain ⟨n, v⟩ := p
    intro hall
    have hrest := ih (fun n' v' d' m' h' => hall n' v' d' m' (List.mem_cons_of_mem _ h'))
    simp only [destroyHooksLoop, hookNamesOf]
    rcases hd : dictGet defs n with _ | d
    · simp [hrest]
    · rcases hm : d.destroy_method with _ | m
      · simp [hm, hrest]
      · rcases hall n v d m (List.mem_cons_self _ _) hd hm with h0 | h1 | h2
        · simp [hm, h0, hrest]
        · simp [hm, h1, hrest]
        · simp [hm, h2, hrest]

/-- C9 (amended): `destroy_singletons` runs the declared destroy hooks of the
live singletons in store order; a hook raising AttributeError or TypeError is
swallowed and the remaining hooks still run and the store is cleared — but a
hook raising any other exception propagates, so the hooks after it never run
and the singleton store is left uncleared. -/
theorem C9_destroy_swallows_only_attr_type :
    (∀ (env : PyEnv) (s : FactoryState),
       (∀ (n : String) (v : Value) (d : BeanDefinition) (m : String),
         (n, v) ∈ s.singleton_instances →
         dictGet s.bean_definitions n = some d →
         d.destroy_method = some m →
         env.hook_raises m v = none ∨ env.hook_raises m v = some .attributeError ∨
           env.hook_raises m v = some .typeError) →
       destroy_singletons env s =
         (hookNamesOf s.bean_definitions s.singleton_instances,
          .ok { s with singleton_instances := [] })) ∧
    (∀ (env : PyEnv) (defs : List (String × BeanDefinition))
       (pre : List (String × Value)) (n : String) (v : Value)
       (post : List (String × Value)) (d : BeanDefinition) (m : String) (k : ExcKind),
       (∀ (n' : String) (v' : Value) (d' : BeanDefinition) (m' : String),
         (n', v') ∈ pre → dictGet defs n' = some d' → d'.destroy_method = some m' →
         env.hook_raises m' v' = none ∨ env.hook_raises m' v' = some .attributeError ∨
           env.hook_raises m' v' = some .typeError) →
       dictGet defs n = some d →
       d.destroy_method = some m →
       env.hook_raises m v = some k →
       k ≠ .attributeError → k ≠ .typeError →
       destroyHooksLoop env defs (pre ++ (n, v) :: post) =
         (hookNamesOf defs pre ++ [n], some k)) := by
  constructor
  · intro env s hall
    have hloop := destroyHooksLoop_swallow env s.bean_definitions s.singleton_instances hall
    simp only [destroy_singletons, hloop]
  · intro env defs pre
    induction pre with
    | nil =>
      intro n v post d m k _ hd hm hk hka hkt
      have hne : ¬(k = .attributeError ∨ k = .typeError) := by
        rintro (h | h)
        · exact hka h
        · exact hkt h
      simp only [List.nil_append, destroyHooksLoop, hd, hm, hk, hookNamesOf]
      rw [if_neg hne]
    | cons p rest ih =>
      obtain ⟨n', v'⟩ := p
      intro n v post d m k hall hd hm hk hka hkt
      have hstep := ih n v post d m k
        (fun a b c e h' => hall a b c e (List.mem_cons_of_mem _ h')) hd hm hk hka hkt
      simp only [List.cons_append, destroyHooksLoop, hookNamesOf]
      rcases hd' : dictGet defs n' with _ | d'
      · simp [hstep]
      · rcases hm' : d'.destroy_method with _ | m'
        · simp [hm', hstep]
        · rcases hall n' v' d' m' (List.mem_cons_self _ _) hd' hm' with h0 | h1 | h2
          · simp [hm', h0, hstep]
          · simp [hm', h1, hstep]
          · simp [hm', h2, hstep]

/-- a singleton whose destroy hook is `closeA`. -/
def defSvcA : BeanDefinition :=
  { bean_type := .cls "SvcA", bean_name := "svcA", destroy_method := some "closeA" }

/-- a singleton whose destroy hook is `closeB`. -/
def defSvcB : BeanDefinition :=
  { bean_type := .cls "SvcB", bean_name := "svcB", destroy_method := some "closeB" }

/-- an environment where `closeA` raises ValueError and everything else
returns normally. -/
def envDestroy : PyEnv :=
  { constructor_info := fun _ => []
    hook_raises := fun m _ => if m = "closeA" then some .valueError else none }

/-- an environment where `closeA` raises TypeError (a swallowed kind). -/
def envDestroySwallow : PyEnv :=
  { constructor_info := fun _ => []
    hook_raises := fun m _ => if m = "closeA" then some .typeError else none }

/-- two live singletons whose definitions declare destroy hooks. -/
def sDestroy : FactoryState :=
  { register_bean_definition (register_bean_definition FactoryState.empty defSvcA) defSvcB with
      singleton_instances := [("svcA", .obj (.cls "SvcA") 0), ("svcB", .obj (.cls "SvcB") 1)]
      next_oid := 2 }

/-- Counterexample for C9: `svcA`'s destroy hook raises ValueError — the
exception is not swallowed: `destroy_singletons` propagates it, `svcB`'s hook
is never invoked (only `svcA` is in the invoked list), and the singleton
store is not cleared. -/
theorem C9_counterexample :
    destroy_singletons envDestroy sDestroy = (["svcA"], .error .valueError) ∧
    sDestroy.singleton_instances ≠ [] :=
  ⟨rfl, by decide⟩

/-- witness for the amended C9: with `closeA` raising TypeError both hooks run
and the store is cleared; with `closeA` raising ValueError the loop stops at
`svcA` and propagates. -/
theorem C9_witness :
    destroy_singletons envDestroySwallow sDestroy =
      (["svcA", "svcB"], .ok { sDestroy with singleton_instances := [] }) ∧
    destroyHooksLoop envDestroy sDestroy.bean_definitions
      ([] ++ ("svcA", .obj (.cls "SvcA") 0) :: [("svcB", .obj (.cls "SvcB") 1)]) =
      ([] ++ ["svcA"], some .valueError) :=
  have happ := C9_destroy_swallows_only_attr_type
  ⟨happ.1 envDestroySwallow sDestroy (by
     intro n v d m hmem hd hm
     have hmem' : (n, v) = ("svcA", Value.obj (.cls "SvcA") 0) ∨
         (n, v) = ("svcB", Value.obj (.cls "SvcB") 1) := by
       simpa [sDestroy] using hmem
     rcases hmem' with h | h <;>
       · injection h with hn hv
         subst hn
         subst hv
         injection hd with hd2
         subst hd2
         injection hm with hm2
         subst hm2
         decide),
   happ.2 envDestroy sDestroy.bean_definitions [] "svcA" (.obj (.cls "SvcA") 0)
     [("svcB", .obj (.cls "SvcB") 1)] defSvcA "closeA" .valueError
     (fun a b c e h' => absurd h' (List.not_mem_nil _)) (by rfl) rfl rfl
     (by decide) (by decide)⟩

end Harmony
